import Mathlib

/-!
Verification of the authenticated-session subsystem of the french-house-stack
repository: the Playwright test-identity injector (loginByCookie), the root
loader's HTTPS enforcement gate, and the session codec / session manager
boundary that the injector exercises.

Sources embedded:
- the e2e helper exporting loginByCookie (imports createUserSession and
  USER_AUTHENTICATION_SESSION_NAME from the user-authentication session
  server module, parses the Set-Cookie header with the cookie library,
  and installs a browser cookie);
- app/root.tsx, whose rootLoader enforces HTTPS outside local development
  before any further request processing.

The user-authentication session server module (constant, codec, session
creation and resolution) is not part of the visible sources; its model is
written from the specification and each such definition is marked
"Modelled from the spec". JavaScript strings are Lean strings, header maps
are association lists, undefined is Option.none, and a thrown error is the
error case of Except.
-/

/-! ## Model of the cookie library's parse function

The cookie library splits the header string on semicolons, keeps only the
segments containing an equals sign, splits each such segment at its first
equals sign, trims surrounding whitespace from key and value, removes one
layer of surrounding double quotes from the value, and keeps the first
binding for a repeated key. Percent-decoding of values is modelled as the
identity, and trimming is modelled on the space character. The parser is
written over character lists so that it is fully computable by the kernel. -/

/-- Removes leading and trailing space characters, modelling the trim calls
of the cookie library's parse function. -/
def trimChars (l : List Char) : List Char :=
  ((l.dropWhile (fun c => c = ' ')).reverse.dropWhile (fun c => c = ' ')).reverse

/-- Splits a character list on every occurrence of the separator. -/
def splitOnChar (sep : Char) : List Char → List (List Char)
  | [] => [[]]
  | c :: rest =>
    let r := splitOnChar sep rest
    if c = sep then [] :: r
    else
      match r with
      | [] => [[c]]
      | x :: xs => (c :: x) :: xs

/-- Splits a segment at its first equals sign; none when the segment has no
equals sign (the cookie library skips such segments). -/
def splitFirstOnEq : List Char → Option (List Char × List Char)
  | [] => none
  | c :: rest =>
    if c = '=' then some ([], rest)
    else
      match splitFirstOnEq rest with
      | none => none
      | some (k, v) => some (c :: k, v)

/-- Removes one layer of surrounding double quotes from a cookie value, as
the cookie library does (drop the first and the last character when the
first character is a double quote). -/
def stripQuotes (l : List Char) : List Char :=
  match l with
  | '"' :: rest => rest.dropLast
  | _ => l

/-- Parses one semicolon-separated segment into a trimmed key/value pair;
none when the segment has no equals sign. -/
def parseCookiePair (seg : List Char) : Option (String × String) :=
  match splitFirstOnEq seg with
  | none => none
  | some (k, v) => some (String.mk (trimChars k), String.mk (stripQuotes (trimChars v)))

/-- Model of the cookie library's parse: the association list of cookie
bindings in header order. -/
def parseCookie (s : String) : List (String × String) :=
  (splitOnChar ';' s.toList).filterMap parseCookiePair

/-- First-binding-wins lookup in an association list, matching both the
cookie library's object construction (a later duplicate key never
overwrites an earlier one) and property access by exact name. -/
def pairsLookup : List (String × String) → String → Option String
  | [], _ => none
  | (k, v) :: rest, n => if k = n then some v else pairsLookup rest n

/-! ## Model of the user-authentication session server module

This module is imported by the visible sources but its code is not under
the visible tree; the definitions below are modelled from the spec. -/

/-- Modelled from the spec: the single fixed, process-wide constant naming
the session cookie, exported by the user-authentication session server
module. Its literal value is not shown in the visible sources; the model
fixes one arbitrary string once, and every component refers to this one
definition. -/
def USER_AUTHENTICATION_SESSION_NAME : String :=
  "__user-authentication-session"

/-- Modelled from the spec: the session record carried by a session token:
an opaque user id, creation and absolute expiry timestamps, and the
remember flag choosing the duration policy. -/
structure SessionRecord where
  userId : String
  createdAt : Nat
  expiresAt : Nat
  remember : Bool
deriving DecidableEq, Repr

/-- Modelled from the spec: serialization of a session record into the
token payload, a flat list of symbols: the user id length, the user id
character codes, the two timestamps, and the remember bit. -/
def serializeRecord (r : SessionRecord) : List Nat :=
  let chars := r.userId.toList.map Char.toNat
  chars.length :: (chars ++ [r.createdAt, r.expiresAt, if r.remember then 1 else 0])

/-- Modelled from the spec: payload parsing, the inverse direction of
serializeRecord; none when the payload does not have the expected shape
(an empty payload, or a length prefix inconsistent with the payload
length). -/
def parsePayload : List Nat → Option SessionRecord
  | [] => none
  | n :: rest =>
    if rest.length = n + 3 then
      some { userId := String.mk ((rest.take n).map Char.ofNat),
             createdAt := rest.getD n 0,
             expiresAt := rest.getD (n + 1) 0,
             remember := rest.getD (n + 2) 0 == 1 }
    else none

/-- Position-weighted keyed checksum accumulator over unbounded naturals:
weight w for the head, w + 1 for the next symbol, and so on. -/
def macAux : Nat → List Nat → Nat
  | _, [] => 0
  | w, x :: xs => w * x + macAux (w + 1) xs

/-- Modelled from the spec: the keyed integrity mechanism over the full
payload. Modelled as a position-weighted keyed checksum over unbounded
naturals, which detects every single-symbol modification of the payload. -/
def macOf (key : Nat) (p : List Nat) : Nat :=
  key + macAux 1 p

/-- Modelled from the spec: the distinguishable failure conditions of the
session codec's decode direction. -/
inductive DecodeFailure where
  | malformed
  | tamperedOrInvalidSignature
  | expired
deriving DecidableEq, Repr

/-- Modelled from the spec: the codec's encode direction: the serialized
payload followed by its keyed integrity tag. Total: encoding a well-formed
record always succeeds. -/
def encode (key : Nat) (r : SessionRecord) : List Nat :=
  serializeRecord r ++ [macOf key (serializeRecord r)]

/-- Modelled from the spec: the codec's decode direction. Shape check
first (malformed), then the keyed integrity check over the full payload
including the expiry (tampered), then payload parsing (malformed), then
the expiry check against the current time (expired); all-or-nothing. -/
def decode (key now : Nat) (t : List Nat) : Except DecodeFailure SessionRecord :=
  match t.getLast? with
  | none => .error .malformed
  | some m =>
    let payload := t.dropLast
    if m = macOf key payload then
      match parsePayload payload with
      | none => .error .malformed
      | some r => if r.expiresAt < now then .error .expired else .ok r
    else .error .tamperedOrInvalidSignature

/-- Modelled from the spec: the short duration, selected when remember is
false (exact value left to configuration by the spec). -/
def shortSessionDuration : Nat := 60 * 60 * 24

/-- Modelled from the spec: the long remember duration (exact value left
to configuration by the spec). -/
def rememberSessionDuration : Nat := 60 * 60 * 24 * 30

/-- Modelled from the spec: session creation binds the identity and the
duration policy into a record, encodes it, and emits the transport
instruction, a cookie to set under the process-wide session cookie name
with the token as its value. -/
def createUserSessionModel (key : Nat) (userId : String) (remember : Bool)
    (now : Nat) : SessionRecord × String × List Nat :=
  let r : SessionRecord :=
    { userId := userId, createdAt := now,
      expiresAt := now + (if remember then rememberSessionDuration else shortSessionDuration),
      remember := remember }
  (r, USER_AUTHENTICATION_SESSION_NAME, encode key r)

/-- Modelled from the spec: the inbound request context as seen by session
resolution, reduced to its cookie jar: bindings from cookie name to the
transported token. -/
structure RequestContext where
  cookies : List (String × List Nat)
deriving Repr

/-- Token-to-cookie-jar lookup by exact name, first binding wins. -/
def cookieJarLookup : List (String × List Nat) → String → Option (List Nat)
  | [], _ => none
  | (k, v) :: rest, n => if k = n then some v else cookieJarLookup rest n

/-- Modelled from the spec: resolution of a single transported token: the
authenticated identity on a successful decode, none on any decode
failure. -/
def resolveToken (key now : Nat) (t : List Nat) : Option String :=
  match decode key now t with
  | .ok r => some r.userId
  | .error _ => none

/-- Modelled from the spec: session resolution: extract the raw cookie
value for the fixed session-cookie name from the inbound request; when it
is absent return none (unauthenticated, not an error), otherwise decode
it, collapsing every decode failure into the unauthenticated outcome. -/
def resolveSession (key now : Nat) (ctx : RequestContext) : Option String :=
  match cookieJarLookup ctx.cookies USER_AUTHENTICATION_SESSION_NAME with
  | none => none
  | some t => resolveToken key now t

/-! ## The test identity injector (embedded from the e2e helper source) -/

/-- The argument record of the createUserSession call made by
loginByCookie: redirectTo, remember, the url of the synthetic Request
object, and the user id. -/
structure CreateUserSessionArgs where
  redirectTo : String
  remember : Bool
  requestUrl : String
  userId : String
deriving DecidableEq, Repr

/-- A response as observed by the injector: its header list. Header names
are used in their canonical form, so lookup is by exact name. -/
structure Response where
  headers : List (String × String)
deriving Repr

/-- headers.get on the model: the first header with the given name, none
when absent (null in JavaScript). -/
def headersGet (r : Response) (n : String) : Option String :=
  pairsLookup r.headers n

/-- The cookie record handed to page.context().addCookies by the injector.
The value is optional because the source passes through an unchecked
indexing result, which may be undefined. -/
structure BrowserCookie where
  name : String
  value : Option String
  domain : String
  path : String
deriving DecidableEq, Repr

/-- The one failure of loginByCookie: the thrown error when the response
carries no usable Set-Cookie header value. -/
inductive LoginError where
  | cookieMissing
deriving DecidableEq, Repr

/-- Embedded from the source: generates a random decentralized identity
token from a faker-supplied ethereum address (the randomness source is the
explicit address argument). -/
def generateRandomDid (ethereumAddress : String) : String :=
  "did:ethr:" ++ ethereumAddress

/-- The exact argument record loginByCookie passes to createUserSession,
as written inline in the source: redirectTo the root path, remember false,
a synthetic Request for the local development origin, and the given or
generated user id. -/
def loginCallArgs (ethereumAddress : String) (id? : Option String) :
    CreateUserSessionArgs :=
  { redirectTo := "/", remember := false,
    requestUrl := "http://localhost:3000/",
    userId := id?.getD (generateRandomDid ethereumAddress) }

/-- Embedded from the source: loginByCookie. Calls createUserSession with
the inline argument record, reads the Set-Cookie header, throws when that
value is falsy (absent, or the empty string), otherwise parses the header
with the cookie library, indexes the result by the session cookie name
without checking for presence, and installs the browser cookie. The
createUserSession import is a parameter because its module is outside the
visible sources. -/
def loginByCookie (createUserSession : CreateUserSessionArgs → Response)
    (ethereumAddress : String) (id? : Option String) :
    Except LoginError BrowserCookie :=
  let id := id?.getD (generateRandomDid ethereumAddress)
  let response := createUserSession
    { redirectTo := "/", remember := false,
      requestUrl := "http://localhost:3000/", userId := id }
  let cookieValue := headersGet response "Set-Cookie"
  match cookieValue with
  | none => .error .cookieMissing
  | some s =>
    if s = "" then .error .cookieMissing
    else
      let parsedCookie := parseCookie s
      let token := pairsLookup parsedCookie USER_AUTHENTICATION_SESSION_NAME
      .ok { name := USER_AUTHENTICATION_SESSION_NAME, value := token,
            domain := "localhost", path := "/" }

/-! ## The root loader (embedded from app/root.tsx) -/

/-- The NODE_ENV defaulting expression of the root loader: the JavaScript
or-operator falls through to the string production when the variable is
unset or the empty string (both falsy). -/
def effectiveNodeEnv (nodeEnv : Option String) : String :=
  match nodeEnv with
  | none => "production"
  | some s => if s = "" then "production" else s

/-- The observable processing steps of the root loader, in source order:
the HTTPS enforcement check, locale detection, translation lookup, toast
cookie reading, and the json response. -/
inductive RootStep where
  | enforceHttpsCheck
  | getLocale
  | getFixedT
  | getToast
  | jsonResponse
deriving DecidableEq, Repr

/-- The outcome of a root loader run: either the HTTPS upgrade redirect
thrown by the enforcement check, or the loader data response. -/
inductive RootOutcome where
  | redirectToHttps
  | loaderData
deriving DecidableEq, Repr

/-- One run of the root loader: the steps it executed in order and its
outcome. -/
structure RootLoaderRun where
  steps : List RootStep
  outcome : RootOutcome
deriving DecidableEq, Repr

/-- Modelled from the spec: enforceHttps (imported from a module outside
the visible tree) short-circuits a plaintext request with an upgrade
redirect and lets an encrypted request proceed. -/
def enforceHttps (isEncrypted : Bool) : Option RootOutcome :=
  if isEncrypted then none else some .redirectToHttps

/-- Embedded from app/root.tsx: the root loader reads NODE_ENV, runs
enforceHttps first whenever the effective environment is production, and
only afterwards performs locale detection, translation lookup, toast
cookie reading, and the json response. -/
def rootLoader (nodeEnv : Option String) (isEncrypted : Bool) : RootLoaderRun :=
  if effectiveNodeEnv nodeEnv = "production" then
    match enforceHttps isEncrypted with
    | some o => { steps := [.enforceHttpsCheck], outcome := o }
    | none =>
      { steps := [.enforceHttpsCheck, .getLocale, .getFixedT, .getToast, .jsonResponse],
        outcome := .loaderData }
  else
    { steps := [.getLocale, .getFixedT, .getToast, .jsonResponse],
      outcome := .loaderData }

/-! ## Helper facts and sample inputs -/

/-- A sample createUserSession behavior whose response carries a
well-formed Set-Cookie header with a session entry. -/
def cusSample : CreateUserSessionArgs → Response := fun _ =>
  { headers :=
      [("Set-Cookie",
        "__user-authentication-session=tok123; Path=/; HttpOnly; SameSite=Lax")] }

/-- A sample createUserSession behavior whose response has no headers. -/
def cusNoHeader : CreateUserSessionArgs → Response := fun _ =>
  { headers := [] }

/-- A sample createUserSession behavior whose response carries a
Set-Cookie header bound to the empty string. -/
def cusEmptySetCookie : CreateUserSessionArgs → Response := fun _ =>
  { headers := [("Set-Cookie", "")] }

/-- A sample createUserSession behavior whose response carries a nonempty
Set-Cookie header with no entry under the session cookie name. -/
def cusNoSessionEntry : CreateUserSessionArgs → Response := fun _ =>
  { headers := [("Set-Cookie", "toast=hello; Path=/")] }

/-- The browser cookie that loginByCookie installs for the cusSample
behavior. -/
def sampleBrowserCookie : BrowserCookie :=
  { name := USER_AUTHENTICATION_SESSION_NAME, value := some "tok123",
    domain := "localhost", path := "/" }

/-- Unfolding lemma: loginByCookie is exactly the case split on the
Set-Cookie header of the response produced by the inline call arguments. -/
theorem loginByCookie_eq (cus : CreateUserSessionArgs → Response)
    (g : String) (id? : Option String) :
    loginByCookie cus g id? =
      match headersGet (cus (loginCallArgs g id?)) "Set-Cookie" with
      | none => .error .cookieMissing
      | some s =>
        if s = "" then .error .cookieMissing
        else
          .ok { name := USER_AUTHENTICATION_SESSION_NAME,
                value := pairsLookup (parseCookie s) USER_AUTHENTICATION_SESSION_NAME,
                domain := "localhost", path := "/" } := rfl

/-- Inversion: a successful run of loginByCookie determines the header and
the installed cookie completely. -/
theorem loginByCookie_ok_inv (cus : CreateUserSessionArgs → Response)
    (g : String) (id? : Option String) (c : BrowserCookie)
    (h : loginByCookie cus g id? = .ok c) :
    ∃ s, headersGet (cus (loginCallArgs g id?)) "Set-Cookie" = some s ∧ s ≠ "" ∧
      c = { name := USER_AUTHENTICATION_SESSION_NAME,
            value := pairsLookup (parseCookie s) USER_AUTHENTICATION_SESSION_NAME,
            domain := "localhost", path := "/" } := by
  rw [loginByCookie_eq] at h
  split at h
  · exact absurd h (by simp)
  · rename_i s heq
    split at h
    · exact absurd h (by simp)
    · rename_i hs
      cases h
      exact ⟨s, heq, hs, rfl⟩

/-! ## Claims about the test identity injector -/

/-- Claim C1: the session cookie name used by session creation, session
resolution, and test injection is one single process-wide constant: the
injector extracts the header entry and installs the browser cookie under
the literal same string, the imported constant, and the modelled creation
and resolution paths key off that same constant. -/
theorem c1_session_cookie_name_is_one_constant
    (cus : CreateUserSessionArgs → Response) (g : String) (id? : Option String)
    (c : BrowserCookie) (h : loginByCookie cus g id? = .ok c) :
    c.name = USER_AUTHENTICATION_SESSION_NAME ∧
    (∀ s, headersGet (cus (loginCallArgs g id?)) "Set-Cookie" = some s →
      c.value = pairsLookup (parseCookie s) USER_AUTHENTICATION_SESSION_NAME) ∧
    (∀ key uid rem now,
      (createUserSessionModel key uid rem now).2.1 = USER_AUTHENTICATION_SESSION_NAME) ∧
    (∀ key now ctx, resolveSession key now ctx =
      (cookieJarLookup ctx.cookies USER_AUTHENTICATION_SESSION_NAME).bind
        (resolveToken key now)) := by
  obtain ⟨s, heq, hs, rfl⟩ := loginByCookie_ok_inv cus g id? c h
  refine ⟨rfl, ?_, fun key uid rem now => rfl, fun key now ctx => ?_⟩
  · intro s' hg'
    rw [heq] at hg'
    cases hg'
    rfl
  · unfold resolveSession
    cases cookieJarLookup ctx.cookies USER_AUTHENTICATION_SESSION_NAME <;> rfl

/-- Witness for claim C1 at a concrete behavior and input. -/
theorem c1_session_cookie_name_is_one_constant_witness :
    sampleBrowserCookie.name = USER_AUTHENTICATION_SESSION_NAME ∧
    (∀ s, headersGet (cusSample (loginCallArgs "0xabc" (some "did:ethr:0xabc")))
        "Set-Cookie" = some s →
      sampleBrowserCookie.value =
        pairsLookup (parseCookie s) USER_AUTHENTICATION_SESSION_NAME) ∧
    (∀ key uid rem now,
      (createUserSessionModel key uid rem now).2.1 = USER_AUTHENTICATION_SESSION_NAME) ∧
    (∀ key now ctx, resolveSession key now ctx =
      (cookieJarLookup ctx.cookies USER_AUTHENTICATION_SESSION_NAME).bind
        (resolveToken key now)) :=
  c1_session_cookie_name_is_one_constant cusSample "0xabc" (some "did:ethr:0xabc")
    sampleBrowserCookie rfl

/-- Claim C2: whenever the response produced by createUserSession carries
no Set-Cookie header, loginByCookie throws the cookie-missing error rather
than returning normally. -/
theorem c2_missing_set_cookie_header_throws
    (cus : CreateUserSessionArgs → Response) (g : String) (id? : Option String)
    (h : headersGet (cus (loginCallArgs g id?)) "Set-Cookie" = none) :
    loginByCookie cus g id? = .error .cookieMissing := by
  rw [loginByCookie_eq, h]

/-- Witness for claim C2 at a concrete behavior with no headers. -/
theorem c2_missing_set_cookie_header_throws_witness :
    headersGet (cusNoHeader (loginCallArgs "0xabc" none)) "Set-Cookie" = none ∧
    loginByCookie cusNoHeader "0xabc" none = .error .cookieMissing :=
  ⟨rfl, c2_missing_set_cookie_header_throws cusNoHeader "0xabc" none rfl⟩

/-- Claim C4: every invocation of the injector calls createUserSession
with remember false, the redirect target of the root path, and a synthetic
request for the local development origin rather than a real inbound
request; when the caller omits the user id it supplies the freshly
generated synthetic decentralized identifier instead; and the run depends
on createUserSession only through its value at exactly this argument
record. -/
theorem c4_injector_call_arguments
    (cus cus' : CreateUserSessionArgs → Response) (g : String) (id? : Option String)
    (h : cus (loginCallArgs g id?) = cus' (loginCallArgs g id?)) :
    (loginCallArgs g id?).remember = false ∧
    (loginCallArgs g id?).redirectTo = "/" ∧
    (loginCallArgs g id?).requestUrl = "http://localhost:3000/" ∧
    (loginCallArgs g none).userId = generateRandomDid g ∧
    (∀ i, (loginCallArgs g (some i)).userId = i) ∧
    loginByCookie cus g id? = loginByCookie cus' g id? := by
  refine ⟨rfl, rfl, rfl, rfl, fun i => rfl, ?_⟩
  rw [loginByCookie_eq, loginByCookie_eq, h]

/-- Witness for claim C4 at a concrete behavior and input. -/
theorem c4_injector_call_arguments_witness :
    (loginCallArgs "0xabc" none).remember = false ∧
    (loginCallArgs "0xabc" none).redirectTo = "/" ∧
    (loginCallArgs "0xabc" none).requestUrl = "http://localhost:3000/" ∧
    (loginCallArgs "0xabc" none).userId = generateRandomDid "0xabc" ∧
    (∀ i, (loginCallArgs "0xabc" (some i)).userId = i) ∧
    loginByCookie cusSample "0xabc" none = loginByCookie cusSample "0xabc" none :=
  c4_injector_call_arguments cusSample cusSample "0xabc" none rfl

/-- Claim C5: every successful run of the injector installs exactly the
cookie whose name is the session cookie constant, whose value is the entry
extracted from the Set-Cookie header by exact name match, with domain
localhost and path the root; the run consumes the response of a direct
createUserSession call, so no HTTP round trip to a running server
occurs. -/
theorem c5_installed_cookie_is_extracted_pair
    (cus : CreateUserSessionArgs → Response) (g : String) (id? : Option String)
    (c : BrowserCookie) (h : loginByCookie cus g id? = .ok c) :
    ∃ s, headersGet (cus (loginCallArgs g id?)) "Set-Cookie" = some s ∧
      c = { name := USER_AUTHENTICATION_SESSION_NAME,
            value := pairsLookup (parseCookie s) USER_AUTHENTICATION_SESSION_NAME,
            domain := "localhost", path := "/" } := by
  obtain ⟨s, heq, _, rfl⟩ := loginByCookie_ok_inv cus g id? c h
  exact ⟨s, heq, rfl⟩

/-- Witness for claim C5 at a concrete behavior and input. -/
theorem c5_installed_cookie_is_extracted_pair_witness :
    loginByCookie cusSample "0xabc" (some "did:ethr:0xabc") = .ok sampleBrowserCookie ∧
    ∃ s, headersGet (cusSample (loginCallArgs "0xabc" (some "did:ethr:0xabc")))
        "Set-Cookie" = some s ∧
      sampleBrowserCookie =
        { name := USER_AUTHENTICATION_SESSION_NAME,
          value := pairsLookup (parseCookie s) USER_AUTHENTICATION_SESSION_NAME,
          domain := "localhost", path := "/" } :=
  ⟨rfl, c5_installed_cookie_is_extracted_pair cusSample "0xabc" (some "did:ethr:0xabc")
    sampleBrowserCookie rfl⟩

/-- Claim C10, counterexample: a response whose Set-Cookie header is
present but bound to the empty string contains no entry under the session
cookie name, yet loginByCookie throws on it, because the JavaScript
falsiness check also fires on the empty string; so the fatal check does
not cover only the total absence of the header, and this run does not
proceed to install a cookie. -/
theorem c10_counterexample_empty_header_throws :
    headersGet (cusEmptySetCookie (loginCallArgs "0xabc" (some "u"))) "Set-Cookie" =
      some "" ∧
    pairsLookup (parseCookie "") USER_AUTHENTICATION_SESSION_NAME = none ∧
    loginByCookie cusEmptySetCookie "0xabc" (some "u") = .error .cookieMissing :=
  ⟨rfl, rfl, rfl⟩

/-- Claim C10 as amended: the fatal check covers exactly the JavaScript
falsy values of the header read, absence and the empty string; whenever
the Set-Cookie header is present and nonempty but contains no entry under
the session cookie name, loginByCookie does not throw and proceeds to
install a cookie whose value is undefined. -/
theorem c10_no_session_entry_installs_undefined_value
    (cus : CreateUserSessionArgs → Response) (g : String) (id? : Option String)
    (s : String)
    (h1 : headersGet (cus (loginCallArgs g id?)) "Set-Cookie" = some s)
    (h2 : s ≠ "")
    (h3 : pairsLookup (parseCookie s) USER_AUTHENTICATION_SESSION_NAME = none) :
    loginByCookie cus g id? =
      .ok { name := USER_AUTHENTICATION_SESSION_NAME, value := none,
            domain := "localhost", path := "/" } := by
  rw [loginByCookie_eq, h1]
  simp only [if_neg h2, h3]

/-- Witness for the amended claim C10 at a concrete behavior whose header
names only an unrelated cookie. -/
theorem c10_no_session_entry_installs_undefined_value_witness :
    headersGet (cusNoSessionEntry (loginCallArgs "0xabc" (some "u"))) "Set-Cookie" =
      some "toast=hello; Path=/" ∧
    "toast=hello; Path=/" ≠ "" ∧
    pairsLookup (parseCookie "toast=hello; Path=/") USER_AUTHENTICATION_SESSION_NAME =
      none ∧
    loginByCookie cusNoSessionEntry "0xabc" (some "u") =
      .ok { name := USER_AUTHENTICATION_SESSION_NAME, value := none,
            domain := "localhost", path := "/" } :=
  ⟨rfl, by decide, rfl,
    c10_no_session_entry_installs_undefined_value cusNoSessionEntry "0xabc" (some "u")
      "toast=hello; Path=/" rfl (by decide) rfl⟩

/-! ## Claims about the root loader -/

/-- Claim C3: for every request handled by the root loader in a production
environment, the HTTPS enforcement check runs before any other request
processing, and a plaintext production request is redirected before any
session or cookie logic (in particular the toast cookie read) can run. -/
theorem c3_enforce_https_runs_first_in_production
    (nodeEnv : Option String) (h : effectiveNodeEnv nodeEnv = "production") :
    (∀ b, (rootLoader nodeEnv b).steps.head? = some .enforceHttpsCheck) ∧
    rootLoader nodeEnv false =
      { steps := [.enforceHttpsCheck], outcome := .redirectToHttps } ∧
    RootStep.getToast ∉ (rootLoader nodeEnv false).steps := by
  refine ⟨fun b => ?_, ?_, ?_⟩
  · cases b <;> simp [rootLoader, h, enforceHttps]
  · simp [rootLoader, h, enforceHttps]
  · simp [rootLoader, h, enforceHttps]

/-- Witness for claim C3 with NODE_ENV set to production. -/
theorem c3_enforce_https_runs_first_in_production_witness :
    effectiveNodeEnv (some "production") = "production" ∧
    (∀ b, (rootLoader (some "production") b).steps.head? = some .enforceHttpsCheck) ∧
    rootLoader (some "production") false =
      { steps := [.enforceHttpsCheck], outcome := .redirectToHttps } ∧
    RootStep.getToast ∉ (rootLoader (some "production") false).steps :=
  ⟨rfl, c3_enforce_https_runs_first_in_production (some "production") rfl⟩

/-- Claim C9: when NODE_ENV is unset the root loader treats the
environment as production, so the HTTPS enforcement check runs first and a
plaintext request is redirected: the transport precondition defaults to
the fail-closed branch. -/
theorem c9_unset_node_env_defaults_to_production :
    effectiveNodeEnv none = "production" ∧
    (rootLoader none true).steps.head? = some .enforceHttpsCheck ∧
    (rootLoader none false).steps.head? = some .enforceHttpsCheck ∧
    (rootLoader none false).outcome = .redirectToHttps :=
  ⟨rfl, rfl, rfl, rfl⟩

/-! ## Claims about the session codec and session resolution -/

/-- Mapping character codes back to characters is the identity on the
codes of a string. -/
theorem map_ofNat_toNat_toList (u : String) :
    (u.toList.map Char.toNat).map Char.ofNat = u.toList := by
  rw [List.map_map]
  exact List.map_id'' Char.ofNat_toNat _

/-- Unfolding of payload parsing on a nonempty payload. -/
theorem parsePayload_cons (n : Nat) (rest : List Nat) :
    parsePayload (n :: rest) =
      if rest.length = n + 3 then
        some { userId := String.mk ((rest.take n).map Char.ofNat),
               createdAt := rest.getD n 0,
               expiresAt := rest.getD (n + 1) 0,
               remember := rest.getD (n + 2) 0 == 1 }
      else none := rfl

/-- Indexing with default past the left part of an appended list. -/
theorem getD_append_self (l₁ l₂ : List Nat) (k : Nat) :
    (l₁ ++ l₂).getD (l₁.length + k) 0 = l₂.getD k 0 := by
  induction l₁ with
  | nil => simp
  | cons x xs ih =>
    simp only [List.cons_append, List.length_cons]
    rw [show xs.length + 1 + k = (xs.length + k) + 1 by omega]
    simpa using ih

/-- Indexing with default at exactly the length of the left part. -/
theorem getD_append_zero (l₁ l₂ : List Nat) :
    (l₁ ++ l₂).getD l₁.length 0 = l₂.getD 0 0 := by
  simpa using getD_append_self l₁ l₂ 0

/-- Payload parsing inverts record serialization. -/
theorem parsePayload_serializeRecord (r : SessionRecord) :
    parsePayload (serializeRecord r) = some r := by
  obtain ⟨u, cA, eA, rem⟩ := r
  simp only [serializeRecord]
  rw [parsePayload_cons, if_pos (by simp)]
  rw [List.take_left, map_ofNat_toNat_toList]
  rw [getD_append_zero, getD_append_self, getD_append_self]
  cases rem <;> rfl

/-- The weighted checksum accumulator separates lists differing in one
position, for any positive starting weight. -/
theorem macAux_set_ne (l : List Nat) : ∀ (i v w : Nat), i < l.length →
    v ≠ l.getD i 0 → 1 ≤ w → macAux w (l.set i v) ≠ macAux w l := by
  induction l with
  | nil =>
    intro i v w hi
    simp at hi
  | cons x xs ih =>
    intro i v w hi hv hw heq
    cases i with
    | zero =>
      simp only [List.set_cons_zero, macAux] at heq
      have hvx : v ≠ x := by simpa using hv
      have hmul : w * v = w * x := by omega
      exact hvx (Nat.eq_of_mul_eq_mul_left (by omega) hmul)
    | succ j =>
      simp only [List.set_cons_succ, macAux] at heq
      have hj : j < xs.length := by simpa using hi
      have hv' : v ≠ xs.getD j 0 := by simpa using hv
      exact ih j v (w + 1) hj hv' (by omega) (by omega)

/-- The keyed checksum separates a payload from any of its single-position
modifications. -/
theorem macOf_set_ne (key : Nat) (p : List Nat) (i v : Nat)
    (hi : i < p.length) (hv : v ≠ p.getD i 0) :
    macOf key (p.set i v) ≠ macOf key p := by
  intro heq
  simp only [macOf] at heq
  exact macAux_set_ne p i v 1 hi hv (Nat.le_refl 1) (Nat.add_left_cancel heq)

/-- Indexing with default on the left part of an appended list. -/
theorem getD_append_left_zero (l₁ l₂ : List Nat) (i : Nat) (h : i < l₁.length) :
    (l₁ ++ l₂).getD i 0 = l₁.getD i 0 := by
  rw [List.getD_eq_getElem _ _ (by simp only [List.length_append]; omega),
    List.getD_eq_getElem _ _ h]
  exact List.getElem_append_left h

/-- Indexing with default at the position of the appended last element. -/
theorem getD_concat_length_zero (l : List Nat) (m : Nat) :
    (l ++ [m]).getD l.length 0 = m := by
  rw [List.getD_eq_getElem _ _ (by simp)]
  exact List.getElem_concat_length l m _ rfl _

/-- A sample session record for concrete evaluation. -/
def sampleRecord : SessionRecord :=
  { userId := "did:ethr:0xabc", createdAt := 1, expiresAt := 10, remember := false }

/-- Claim C6: for every well-formed session record, encoding succeeds (the
encoder is total) and decoding the encoded token at any time within the
record's lifetime returns exactly the record, user id and expiry
preserved. -/
theorem c6_codec_roundtrip (key : Nat) (r : SessionRecord) (now : Nat)
    (h : now ≤ r.expiresAt) :
    decode key now (encode key r) = .ok r := by
  have hexp : ¬ r.expiresAt < now := Nat.not_lt.mpr h
  simp [encode, decode, List.getLast?_concat, List.dropLast_concat,
    parsePayload_serializeRecord, hexp]

/-- Witness for claim C6 at a concrete record, key, and time. -/
theorem c6_codec_roundtrip_witness :
    5 ≤ sampleRecord.expiresAt ∧
    decode 7 5 (encode 7 sampleRecord) = .ok sampleRecord :=
  ⟨by decide, c6_codec_roundtrip 7 sampleRecord 5 (by decide)⟩

/-- Claim C7: for every token produced by encode and every single-symbol
modification of it (any position, any different value), decode returns the
tampered-or-invalid-signature failure or the malformed failure, never a
successfully decoded record with altered fields. -/
theorem c7_single_symbol_tamper_detected (key : Nat) (r : SessionRecord)
    (now i v : Nat) (h1 : i < (encode key r).length)
    (h2 : v ≠ (encode key r).getD i 0) :
    decode key now ((encode key r).set i v) = .error .tamperedOrInvalidSignature ∨
    decode key now ((encode key r).set i v) = .error .malformed := by
  left
  have hlen : (encode key r).length = (serializeRecord r).length + 1 := by
    simp [encode]
  rcases Nat.lt_or_ge i (serializeRecord r).length with hi | hge
  · have hset : (encode key r).set i v =
        (serializeRecord r).set i v ++ [macOf key (serializeRecord r)] := by
      simp only [encode]
      exact List.set_append_left i v hi
    have hvd : v ≠ (serializeRecord r).getD i 0 := by
      simp only [encode] at h2
      rw [getD_append_left_zero _ _ i hi] at h2
      exact h2
    have hne : macOf key (serializeRecord r) ≠
        macOf key ((serializeRecord r).set i v) := by
      intro heq
      exact macOf_set_ne key (serializeRecord r) i v hi hvd heq.symm
    rw [hset]
    simp only [decode, List.getLast?_concat, List.dropLast_concat]
    rw [if_neg hne]
  · have hieq : i = (serializeRecord r).length := by omega
    subst hieq
    have hset : (encode key r).set (serializeRecord r).length v =
        serializeRecord r ++ [v] := by
      simp only [encode]
      rw [List.set_append_right _ _ (Nat.le_refl _)]
      simp
    have hvm : v ≠ macOf key (serializeRecord r) := by
      simp only [encode] at h2
      rw [getD_concat_length_zero] at h2
      exact h2
    rw [hset]
    simp only [decode, List.getLast?_concat, List.dropLast_concat]
    rw [if_neg hvm]

/-- Witness for claim C7: flipping the first symbol of a concrete encoded
token makes decode report tampering. -/
theorem c7_single_symbol_tamper_detected_witness :
    (0 : Nat) < (encode 7 sampleRecord).length ∧
    (999 : Nat) ≠ (encode 7 sampleRecord).getD 0 0 ∧
    (decode 7 5 ((encode 7 sampleRecord).set 0 999) =
        .error .tamperedOrInvalidSignature ∨
      decode 7 5 ((encode 7 sampleRecord).set 0 999) = .error .malformed) :=
  ⟨by decide, by decide,
    c7_single_symbol_tamper_detected 7 sampleRecord 5 0 999 (by decide) (by decide)⟩

/-- Claim C8: for every request context in which no session cookie is
present, session resolution returns none, the unauthenticated outcome; the
resolver is a total function, so no exception or fault is raised. -/
theorem c8_no_cookie_resolves_to_none (key now : Nat) (ctx : RequestContext)
    (h : cookieJarLookup ctx.cookies USER_AUTHENTICATION_SESSION_NAME = none) :
    resolveSession key now ctx = none := by
  unfold resolveSession
  rw [h]

/-- Witness for claim C8 at a concrete context holding only an unrelated
cookie. -/
theorem c8_no_cookie_resolves_to_none_witness :
    cookieJarLookup
        ({ cookies := [("other-cookie", [1, 2])] } : RequestContext).cookies
        USER_AUTHENTICATION_SESSION_NAME = none ∧
    resolveSession 7 5 { cookies := [("other-cookie", [1, 2])] } = none :=
  ⟨by decide,
    c8_no_cookie_resolves_to_none 7 5 { cookies := [("other-cookie", [1, 2])] }
      (by decide)⟩
